import Mathlib

/-!
Verification of the bisquitt MQTT-SN gateway's session-handler core against
its specification.  The Go source is embedded shallowly: pure functions become
Lean functions, stateful transaction methods become explicit state-passing
functions that also return the ordered list of observable actions (messages
sent, state transitions, transaction completion).  Parts of the repository
that are not under src/ (the handler supervisor, the retry kernel, the
SUBSCRIBE transaction, most message codecs) are modelled from the spec and
are marked as such in their doc comments.
-/

/-- Return codes of MQTT-SN v1.2 (one wire byte), as in bisquitt's
`messages.ReturnCode` constants. -/
inductive ReturnCode
  | RC_ACCEPTED
  | RC_CONGESTION
  | RC_INVALID_TOPIC_ID
  | RC_NOT_SUPPORTED
  deriving DecidableEq, Repr

/-- Handler states, as in bisquitt's `util` package
(`StateDisconnected`, `StateActive`, `StateAsleep`, `StateAwake`). -/
inductive HandlerState
  | StateDisconnected
  | StateActive
  | StateAsleep
  | StateAwake
  deriving DecidableEq, Repr

/-- The MQTT CONNECT packet skeleton built by the CONNECT transaction
(`paho.mqtt.golang/packets.ConnectPacket`), restricted to the fields the
gateway reads or writes.  Byte-string fields are byte lists. -/
structure ConnectPacket where
  clientIdentifier : List Nat
  cleanSession : Bool
  keepalive : Nat
  protocolVersion : Nat
  protocolName : String
  willFlag : Bool
  willQos : Nat
  willRetain : Bool
  willTopic : List Nat
  willMessage : List Nat
  usernameFlag : Bool
  username : List Nat
  passwordFlag : Bool
  password : List Nat
  deriving DecidableEq, Repr

/-- Errors with which a CONNECT transaction can complete.  `cancelled` is the
distinguished sentinel `Cancelled` from connect_transaction.go;
`brokerRefused rc` embeds the error "CONNECT refused by MQTT broker with
return code rc" (the broker's return code is part of the error);
`unknownAuthMethod m` embeds "Unknown auth method: m". -/
inductive TxError
  | cancelled
  | brokerRefused (rc : Nat)
  | unknownAuthMethod (m : Nat)
  | decodePlainError
  | retryExhausted
  | regackError (rc : ReturnCode)
  deriving DecidableEq, Repr

/-- Terminal outcome of a transaction: `Success()` or `Fail(e)`. -/
inductive TxOutcome
  | success
  | failed (e : TxError)
  deriving DecidableEq, Repr

/-- MQTT-SN messages emitted by the CONNECT transaction toward the client. -/
inductive SnOut
  | connack (rc : ReturnCode)
  | willTopicReq
  | willMsgReq
  deriving DecidableEq, Repr

/-- Observable actions of the CONNECT transaction, in the order the Go code
performs them: `snSend` writes an MQTT-SN message to the client, `mqttSend`
writes the MQTT CONNECT to the broker, `setState` is
`t.handler.setState(...)`, `fail`/`success` complete the transaction. -/
inductive TxEvent
  | snSend (m : SnOut)
  | mqttSend (m : ConnectPacket)
  | setState (s : HandlerState)
  | fail (e : TxError)
  | success
  deriving DecidableEq, Repr

/-- The MQTT CONNACK return code `Accepted` (paho `packets.Accepted` = 0). -/
def mqttAccepted : Nat := 0

/-- Embedding of `connectTransaction.Connack` (connect_transaction.go).
Given the return code of the MQTT CONNACK received from the broker, it yields
the ordered list of observable actions.  On a non-Accepted code the gateway
sends SN CONNACK(RC_CONGESTION) and fails with an error naming the broker's
return code; on Accepted it sets the handler state to StateActive, then sends
SN CONNACK(RC_ACCEPTED), then succeeds.  I/O errors of the writers are not
modelled (sends always succeed). -/
def connackEvents (mqConnackRc : Nat) : List TxEvent :=
  if mqConnackRc ≠ mqttAccepted then
    [TxEvent.snSend (SnOut.connack ReturnCode.RC_CONGESTION),
     TxEvent.fail (TxError.brokerRefused mqConnackRc)]
  else
    [TxEvent.setState HandlerState.StateActive,
     TxEvent.snSend (SnOut.connack ReturnCode.RC_ACCEPTED),
     TxEvent.success]

/-- Effect of one transaction action on the handler state: only `setState`
changes it. -/
def applyEvent (h : HandlerState) (e : TxEvent) : HandlerState :=
  match e with
  | TxEvent.setState s => s
  | _ => h

/-- Handler state after executing a list of actions in order. -/
def runEvents (h : HandlerState) (es : List TxEvent) : HandlerState :=
  es.foldl applyEvent h

/-- Terminal outcome recorded by a list of actions: the first `fail` or
`success` event, if any. -/
def outcomeOf : List TxEvent → Option TxOutcome
  | [] => none
  | TxEvent.fail e :: _ => some (TxOutcome.failed e)
  | TxEvent.success :: _ => some TxOutcome.success
  | _ :: es => outcomeOf es

/-- Embedding of the completion-watcher goroutine installed by
`connectTransaction.Start` (connect_transaction.go lines 50-66): when the
transaction's Done signal fires, a `Cancelled` error is swallowed (the
goroutine returns nil, so the handler does not terminate), any other error is
returned to the handler group (terminating the handler), and success returns
nil. -/
def connectWatchExit : TxOutcome → Option TxError
  | TxOutcome.success => none
  | TxOutcome.failed e => if e = TxError.cancelled then none else some e

/-- Embedding of `connectTransaction.Start` (after installing the watcher):
with authentication enabled the transaction waits for an SN AUTH message and
sends nothing; otherwise, with WillFlag it sends WILLTOPICREQ, and without
WillFlag it sends the MQTT CONNECT to the broker immediately. -/
def connectStart (authEnabled : Bool) (mq : ConnectPacket) : List TxEvent :=
  if authEnabled then []
  else if mq.willFlag then [TxEvent.snSend SnOut.willTopicReq]
  else [TxEvent.mqttSend mq]

/-- The bisquitt AUTH method byte for PLAIN.  Modelled from the spec: the AUTH
message is a custom bisquitt extension ("method byte + data; PLAIN method =
`\x00username\x00password`"); the numeric constant is not under src/. -/
def AUTH_PLAIN : Nat := 1

/-- The custom MQTT-SN AUTH message: method byte and data bytes. -/
structure AuthMsg where
  method : Nat
  data : List Nat
  deriving DecidableEq, Repr

/-- Modelled from the spec: `messages.DecodePlain` (not under src/) decodes
the PLAIN payload `\x00user\x00password` into the user name and the password;
any payload not of this shape is an error. -/
def DecodePlain (data : List Nat) : Option (List Nat × List Nat) :=
  match data with
  | 0 :: rest =>
    let user := rest.takeWhile (fun b => b ≠ 0)
    match rest.dropWhile (fun b => b ≠ 0) with
    | 0 :: pw => some (user, pw)
    | _ => none
  | _ => none

/-- Embedding of `connectTransaction.Auth` (connect_transaction.go lines
81-109).  On method PLAIN the payload is decoded and UsernameFlag/Username
and PasswordFlag/Password are set on the MQTT CONNECT being built; then, as
in the source, a Will sub-flow continues with WILLTOPICREQ and otherwise the
MQTT CONNECT is sent.  On any other method the transaction sends SN
CONNACK(RC_NOT_SUPPORTED) to the client and fails. -/
def connectAuth (mq : ConnectPacket) (msg : AuthMsg) : ConnectPacket × List TxEvent :=
  if msg.method = AUTH_PLAIN then
    match DecodePlain msg.data with
    | none => (mq, [TxEvent.fail TxError.decodePlainError])
    | some (user, pw) =>
      let mq2 := { mq with
        usernameFlag := true, username := user,
        passwordFlag := true, password := pw }
      if mq2.willFlag then (mq2, [TxEvent.snSend SnOut.willTopicReq])
      else (mq2, [TxEvent.mqttSend mq2])
  else
    (mq, [TxEvent.snSend (SnOut.connack ReturnCode.RC_NOT_SUPPORTED),
          TxEvent.fail (TxError.unknownAuthMethod msg.method)])

/-- A CONNECT transaction entry in the handler's transaction table,
identified by its creation order (the test distinguishes the two transactions
by pointer identity; here by `txId`). -/
structure ConnectTx where
  txId : Nat
  deriving DecidableEq, Repr

/-- The slice of handler state driving the repeated-CONNECT behaviour: the
singleton CONNECT entry of the transaction table (`GetByType CONNECT`), a
fresh-id counter, the log of Done signals fired (transaction id together
with the outcome the signal carries), and the actions emitted so far. -/
structure HandlerConnSt where
  connectTx : Option ConnectTx
  nextTx : Nat
  doneLog : List (Nat × TxOutcome)
  events : List TxEvent
  deriving DecidableEq, Repr

/-- Handler with an empty transaction table and no traffic yet. -/
def initialHandlerConnSt : HandlerConnSt :=
  { connectTx := none, nextTx := 0, doneLog := [], events := [] }

/-- Modelled from the spec: the handler supervisor's dispatch rule "CONNECT
always cancels any live CONNECT transaction, then creates a fresh one"
combined with the spec's cancellation semantics ("cancellation returns the
transaction's Done with the distinguished cancelled sentinel; finalizers
still run (table removal); replacing a live CONNECT cancels the old one
synchronously before installing the new") — the supervisor source is not
under src/.  The fresh transaction is then started as in
`connectTransaction.Start` (embedded above as `connectStart`). -/
def handleSnConnect (h : HandlerConnSt) (authEnabled : Bool)
    (mq : ConnectPacket) : HandlerConnSt :=
  let h1 :=
    match h.connectTx with
    | some t =>
      { h with
        connectTx := none,
        doneLog := h.doneLog ++ [(t.txId, TxOutcome.failed TxError.cancelled)] }
    | none => h
  { h1 with
    connectTx := some { txId := h1.nextTx },
    nextTx := h1.nextTx + 1,
    events := h1.events ++ connectStart authEnabled mq }

/-- MQTT-SN message types (bisquitt `messages` package). -/
inductive MsgType
  | ADVERTISE
  | SEARCHGW
  | GWINFO
  | AUTH
  | CONNECT
  | CONNACK
  | WILLTOPICREQ
  | WILLTOPIC
  | WILLMSGREQ
  | WILLMSG
  | REGISTER
  | REGACK
  | PUBLISH
  | PUBACK
  | PUBCOMP
  | PUBREC
  | PUBREL
  | SUBSCRIBE
  | SUBACK
  | UNSUBSCRIBE
  | UNSUBACK
  | PINGREQ
  | PINGRESP
  | DISCONNECT
  | WILLTOPICUPD
  | WILLTOPICRESP
  | WILLMSGUPD
  | WILLMSGRESP
  deriving DecidableEq, Repr

/-- Topic-id types (two wire bits): registered/normal, predefined, short;
`TIT_STRING` is the SUBSCRIBE/UNSUBSCRIBE form carrying a full topic string. -/
inductive TopicIdType
  | TIT_REGISTERED
  | TIT_PREDEFINED
  | TIT_SHORT
  | TIT_STRING
  deriving DecidableEq, Repr

/-- The fields of an inbound MQTT-SN packet the DISCONNECTED-state dispatch
inspects: its type and, for PUBLISH, the QoS bits (3 encodes QoS -1) and the
topic-id type. -/
structure SnPacketInfo where
  mtype : MsgType
  qos : Nat
  topicIdType : TopicIdType
  deriving DecidableEq, Repr

/-- Advertise-related packet types (gateway-discovery traffic). -/
def advertiseRelated (t : MsgType) : Bool :=
  match t with
  | MsgType.ADVERTISE => true
  | MsgType.GWINFO => true
  | _ => false

/-- Dispatch decision for a packet received in state DISCONNECTED. -/
inductive DispatchResult
  | terminate
  | forwardPublish (p : SnPacketInfo)
  | startConnect
  | handleSearchGw
  | handleAdvertise
  deriving DecidableEq, Repr

/-- Modelled from the spec: the handler supervisor's DISCONNECTED-state
dispatch (the supervisor source is not under src/): "In state DISCONNECTED,
only CONNECT, PUBLISH with QoS -1 on predefined or short topics (when auth
disabled), SEARCHGW, and ADVERTISE-related packets are legal.  Anything else
causes immediate handler termination (no DISCONNECT sent)."  A legal QoS -1
PUBLISH is forwarded to the broker. -/
def dispatchDisconnected (authEnabled : Bool) (p : SnPacketInfo) : DispatchResult :=
  match p.mtype with
  | MsgType.CONNECT => DispatchResult.startConnect
  | MsgType.SEARCHGW => DispatchResult.handleSearchGw
  | MsgType.ADVERTISE => DispatchResult.handleAdvertise
  | MsgType.GWINFO => DispatchResult.handleAdvertise
  | MsgType.PUBLISH =>
    if p.qos = 3
        ∧ (p.topicIdType = TopicIdType.TIT_PREDEFINED
            ∨ p.topicIdType = TopicIdType.TIT_SHORT)
        ∧ authEnabled = false then
      DispatchResult.forwardPublish p
    else
      DispatchResult.terminate
  | _ => DispatchResult.terminate

/-- Externally observable consequences of a DISCONNECTED-state dispatch
decision: whether the handler terminates and closes its MQTT connection,
whether the packet is forwarded to the broker as an MQTT PUBLISH, and which
message types are sent back to the client. -/
structure DispatchEffects where
  terminated : Bool
  mqttClosed : Bool
  forwardedToBroker : Bool
  snSentTypes : List MsgType
  deriving DecidableEq, Repr

/-- Modelled from the spec: the effects of each dispatch decision.
Termination closes the MQTT connection and sends nothing to the client (in
particular no DISCONNECT); a legal QoS -1 PUBLISH is forwarded as an MQTT
PUBLISH; SEARCHGW is answered with GWINFO; CONNECT starts the CONNECT
transaction without immediate client traffic. -/
def dispatchEffects : DispatchResult → DispatchEffects
  | DispatchResult.terminate =>
    { terminated := true, mqttClosed := true, forwardedToBroker := false,
      snSentTypes := [] }
  | DispatchResult.forwardPublish _ =>
    { terminated := false, mqttClosed := false, forwardedToBroker := true,
      snSentTypes := [] }
  | DispatchResult.startConnect =>
    { terminated := false, mqttClosed := false, forwardedToBroker := false,
      snSentTypes := [] }
  | DispatchResult.handleSearchGw =>
    { terminated := false, mqttClosed := false, forwardedToBroker := false,
      snSentTypes := [MsgType.GWINFO] }
  | DispatchResult.handleAdvertise =>
    { terminated := false, mqttClosed := false, forwardedToBroker := false,
      snSentTypes := [] }

/-- One SN PUBLISH as delivered to the client by a broker-side QoS 1
transaction: its DUP flag and message id. -/
structure SnPublishOut where
  dup : Bool
  msgId : Nat
  deriving DecidableEq, Repr

/-- Observable run of a broker-side QoS 1 publish transaction. -/
structure Qos1Run where
  snPublishes : List SnPublishOut
  mqttPubacks : List Nat
  outcome : TxOutcome
  deriving DecidableEq, Repr

/-- Modelled from the spec: the waiting loop of the RetryTransaction kernel
in state AWAITING_PUBACK for the gateway's broker-side QoS 1 publish
transaction (neither is under src/).  Each RetryDelay tick with no SN PUBACK
("`ack` still pending") resends the SN PUBLISH if retry attempts remain and
fails with retry exhaustion otherwise; resends carry DUP=true, following
`brokerPublishTransactionBase.resend` (src), which sets the DUP flag on
every resent message.  When the SN PUBACK arrives (`ack = some 0`), the
gateway forwards an MQTT PUBACK with the same message id to the broker and
the transaction succeeds; `ack = none` means the client never replies. -/
def qos1Await (msgId : Nat) (ack : Option Nat) (retriesLeft : Nat) : Qos1Run :=
  match ack, retriesLeft with
  | some 0, _ =>
    { snPublishes := [], mqttPubacks := [msgId], outcome := TxOutcome.success }
  | some (n + 1), left + 1 =>
    let r := qos1Await msgId (some n) left
    { r with snPublishes := { dup := true, msgId := msgId } :: r.snPublishes }
  | some (_ + 1), 0 =>
    { snPublishes := [], mqttPubacks := [],
      outcome := TxOutcome.failed TxError.retryExhausted }
  | none, left + 1 =>
    let r := qos1Await msgId none left
    { r with snPublishes := { dup := true, msgId := msgId } :: r.snPublishes }
  | none, 0 =>
    { snPublishes := [], mqttPubacks := [],
      outcome := TxOutcome.failed TxError.retryExhausted }

/-- Modelled from the spec: a full broker-side QoS 1 publish run.  The
transaction first sends the SN PUBLISH with DUP=false, then enters
AWAITING_PUBACK with `RetryCount` retry attempts; `ack = some n` means the
client drops n consecutive PUBACKs and then replies, `ack = none` means it
never replies. -/
def brokerQos1Run (msgId retryCount : Nat) (ack : Option Nat) : Qos1Run :=
  let r := qos1Await msgId ack retryCount
  { r with snPublishes := { dup := false, msgId := msgId } :: r.snPublishes }

/-- Payload of an SN PUBLISH as seen by the client library. -/
structure PublishData where
  msgId : Nat
  topicId : Nat
  data : List Nat
  deriving DecidableEq, Repr

/-- Observable actions of the client library's broker-side QoS 2 publish
transaction: messages sent to the gateway and subscription-handler firing
(`client.messageHandlers.handle` with the retained PUBLISH). -/
inductive ClientAction
  | sendPubrec (msgId : Nat)
  | sendPubcomp (msgId : Nat)
  | fireHandlers (p : Option PublishData)
  deriving DecidableEq, Repr

/-- State of `brokerPublishQOS2Transaction` (src, client package): the
retained original PUBLISH, if already received. -/
structure BrokerPubQos2 where
  publish : Option PublishData
  deriving DecidableEq, Repr

/-- Embedding of `brokerPublishQOS2Transaction.Publish` (src): the original
PUBLISH is retained in the transaction and a PUBREC with the same message id
is sent; the subscription handlers are NOT fired here. -/
def bpq2Publish (t : BrokerPubQos2) (p : PublishData) :
    BrokerPubQos2 × List ClientAction :=
  ({ t with publish := some p }, [ClientAction.sendPubrec p.msgId])

/-- Embedding of `brokerPublishQOS2Transaction.Pubrel` (src): on PUBREL the
topic of the retained PUBLISH is resolved first (`client.topicForPublish`;
since its source is not under src/, the resolver is a parameter of the model,
yielding the topic name or `none` on a resolution error).  On a resolution
error the method returns early: the handlers do not fire, no PUBCOMP is sent
and the transaction does not complete.  Otherwise the subscription handlers
are fired with the retained PUBLISH, a PUBCOMP with the PUBREL's message id
is sent, and the transaction succeeds (the returned flag; the finalizer then
deletes it from the transaction table). -/
def bpq2Pubrel (resolve : Option PublishData → Option String)
    (t : BrokerPubQos2) (msgId : Nat) :
    BrokerPubQos2 × List ClientAction × Bool :=
  match resolve t.publish with
  | none => (t, [], false)
  | some _ =>
    (t, [ClientAction.fireHandlers t.publish, ClientAction.sendPubcomp msgId],
     true)

/-- Protocol events delivered to the client for one broker message id. -/
inductive ClientEv
  | publish (p : PublishData)
  | pubrel (msgId : Nat)
  deriving DecidableEq, Repr

/-- One dispatch step of the client for a fixed message id: a PUBLISH creates
the QoS 2 transaction if none is live (or is delivered to the live one — the
source `Publish` method handles resends identically), a PUBREL is delivered
to the live transaction, which is removed from the table by `Success()` and
stays live when the PUBREL handling returned early with an error, and a
PUBREL with no live transaction is ignored (spec dispatch rule: "an id with
no match is logged and ignored"). -/
def clientQos2Step (resolve : Option PublishData → Option String)
    (tbl : Option BrokerPubQos2) (ev : ClientEv) :
    Option BrokerPubQos2 × List ClientAction :=
  match ev with
  | ClientEv.publish p =>
    match tbl with
    | none =>
      let r := bpq2Publish { publish := none } p
      (some r.1, r.2)
    | some t =>
      let r := bpq2Publish t p
      (some r.1, r.2)
  | ClientEv.pubrel mid =>
    match tbl with
    | none => (none, [])
    | some t =>
      let r := bpq2Pubrel resolve t mid
      (if r.2.2 then none else some r.1, r.2.1)

/-- Actions produced by a sequence of client events, starting with no live
transaction. -/
def clientQos2RunFrom (resolve : Option PublishData → Option String)
    (tbl : Option BrokerPubQos2) :
    List ClientEv → List ClientAction
  | [] => []
  | ev :: evs =>
    let r := clientQos2Step resolve tbl ev
    r.2 ++ clientQos2RunFrom resolve r.1 evs

/-- Actions produced by a sequence of client events from the initial state. -/
def clientQos2Run (resolve : Option PublishData → Option String)
    (evs : List ClientEv) : List ClientAction :=
  clientQos2RunFrom resolve none evs

/-- Number of subscription-handler executions in a list of client actions. -/
def countFires (as : List ClientAction) : Nat :=
  (as.filter (fun a =>
    match a with
    | ClientAction.fireHandlers _ => true
    | _ => false)).length

/-- Transaction-stage constants (src, gateway package `transactionState`). -/
inductive GwTransactionState
  | transactionDone
  | awaitingRegack
  | awaitingPuback
  | awaitingPubrec
  | awaitingPubrel
  | awaitingPubcomp
  deriving DecidableEq, Repr

/-- State of the client-side QoS 1 publish transaction
(`publishQOS1Transaction`, src client package): the kernel's state field and
its completion, `none` while the transaction is live. -/
structure PubQos1Tx where
  state : GwTransactionState
  completed : Option TxOutcome
  deriving DecidableEq, Repr

/-- PUBACK fields relevant to the client-side QoS 1 transaction. -/
structure PubackData where
  topicId : Nat
  msgId : Nat
  returnCode : ReturnCode
  deriving DecidableEq, Repr

/-- Embedding of `publishQOS1Transaction.Puback` (src/unnamed/part_000):
if the transaction is not in state awaitingPuback, the message is only
logged and the transaction is left unchanged; otherwise the transaction
succeeds.  No message is emitted in either case (the returned list is the
emitted messages). -/
def pq1Puback (t : PubQos1Tx) (pb : PubackData) : PubQos1Tx × List SnPublishOut :=
  if t.state ≠ GwTransactionState.awaitingPuback then (t, [])
  else ({ t with completed := some TxOutcome.success }, [])

/-- REGISTER fields retained by a broker-side publish transaction as its
retry data (`t.Data`). -/
structure RegisterData where
  topicId : Nat
  topicName : String
  msgId : Nat
  deriving DecidableEq, Repr

/-- REGACK fields. -/
structure RegackData where
  topicId : Nat
  msgId : Nat
  returnCode : ReturnCode
  deriving DecidableEq, Repr

/-- The SN PUBLISH retained by a broker-side publish transaction. -/
structure SnPublishMsg where
  topicId : Nat
  topicIdType : TopicIdType
  msgId : Nat
  qos : Nat
  dup : Bool
  data : List Nat
  deriving DecidableEq, Repr

/-- State of a gateway broker-side publish transaction
(`brokerPublishTransactionBase`, src): the kernel's state, the retry data
(the last REGISTER sent while awaiting REGACK), the retained SN PUBLISH, the
handler's registered-topics map, and the completion. -/
structure BrokerPubTx where
  state : GwTransactionState
  data : RegisterData
  snPublish : SnPublishMsg
  registeredTopics : List (Nat × String)
  completed : Option TxOutcome
  deriving DecidableEq, Repr

/-- Embedding of `brokerPublishTransactionBase.regack` (src): a REGACK
received while not in state awaitingRegack is only logged and leaves the
transaction unchanged; a REGACK with a non-ACCEPTED return code fails the
transaction; an accepted REGACK commits the topic mapping to the handler's
registered-topics map and proceeds to `newState` (ProceedSN), sending the
retained SN PUBLISH and succeeding when `newState` is transactionDone. -/
def bptRegack (t : BrokerPubTx) (regack : RegackData)
    (newState : GwTransactionState) : BrokerPubTx × List SnPublishMsg :=
  if t.state ≠ GwTransactionState.awaitingRegack then (t, [])
  else if regack.returnCode ≠ ReturnCode.RC_ACCEPTED then
    ({ t with completed := some (TxOutcome.failed (TxError.regackError regack.returnCode)) }, [])
  else
    let t1 := { t with
      registeredTopics := (t.data.topicId, t.data.topicName) :: t.registeredTopics,
      state := newState }
    if newState = GwTransactionState.transactionDone then
      ({ t1 with completed := some TxOutcome.success }, [t.snPublish])
    else
      (t1, [t.snPublish])

/-- Wildcard test for topic names, as `hasWildcard` in the gateway tests:
a topic containing `+` or `#`. -/
def hasWildcardTopic (topic : String) : Bool :=
  topic.data.any (fun c => c = Char.ofNat 43 || c = Char.ofNat 35)

/-- The valid registered-topic-id range (bisquitt `messages.MinTopicID`,
`messages.MaxTopicID`): 0 is reserved and 65535 is a type boundary. -/
def MinTopicID : Nat := 1

/-- Upper bound of the valid registered-topic-id range. -/
def MaxTopicID : Nat := 65534

/-- The handler's registered-topics table together with the last allocated
id (ids are allocated sequentially). -/
structure TopicRegistry where
  registered : List (Nat × String)
  lastId : Nat
  deriving DecidableEq, Repr

/-- Lookup of the id registered for a topic name, if any. -/
def findTopicId (regs : List (Nat × String)) (topic : String) : Option Nat :=
  match regs with
  | [] => none
  | (id, name) :: rest => if name = topic then some id else findTopicId rest topic

/-- Modelled from the spec: id allocation for a resolved topic (the topics
package is not under src/): the existing registered id is re-used if the
topic is already registered, otherwise the next id is allocated and the
mapping stored. -/
def registerTopic (r : TopicRegistry) (topic : String) : TopicRegistry × Nat :=
  match findTopicId r.registered topic with
  | some id => (r, id)
  | none =>
    let id := r.lastId + 1
    ({ registered := (id, topic) :: r.registered, lastId := id }, id)

/-- The SN SUBACK returned to the client by the SUBSCRIBE transaction. -/
structure SnSuback where
  topicId : Nat
  msgId : Nat
  qos : Nat
  returnCode : ReturnCode
  deriving DecidableEq, Repr

/-- Modelled from the spec: the SUBSCRIBE transaction's handling of an MQTT
SUBACK (the subscribe transaction source is not under src/): "for wildcard
topic the response carries topic-id=0; for non-wildcard the gateway
allocates a registered id for the resolved topic (or re-uses the existing
one) and returns it in SN SUBACK together with the negotiated QoS"; the
SUBACK also carries the SUBSCRIBE's message id. -/
def subscribeSuback (r : TopicRegistry) (topic : String) (msgId grantedQos : Nat) :
    TopicRegistry × SnSuback :=
  if hasWildcardTopic topic then
    (r, { topicId := 0, msgId := msgId, qos := grantedQos,
          returnCode := ReturnCode.RC_ACCEPTED })
  else
    let ra := registerTopic r topic
    (ra.1, { topicId := ra.2, msgId := msgId, qos := grantedQos,
             returnCode := ReturnCode.RC_ACCEPTED })

/-- Well-formedness of the topic registry: there is room to allocate a fresh
id and every registered id is in the valid range. -/
def registryWf (r : TopicRegistry) : Prop :=
  r.lastId < MaxTopicID ∧
    ∀ p ∈ r.registered, MinTopicID ≤ p.1 ∧ p.1 ≤ MaxTopicID

/-- Big-endian encoding of a 16-bit value, as `messages.encodeUint16`. -/
def encodeUint16 (n : Nat) : List Nat := [n / 256, n % 256]

/-- Wire codes of the MQTT-SN message types (MQTT-SN v1.2 table; bisquitt
follows it, AUTH being a custom extension). -/
def msgTypeCode : MsgType → Nat
  | MsgType.ADVERTISE => 0x00
  | MsgType.SEARCHGW => 0x01
  | MsgType.GWINFO => 0x02
  | MsgType.AUTH => 0x03
  | MsgType.CONNECT => 0x04
  | MsgType.CONNACK => 0x05
  | MsgType.WILLTOPICREQ => 0x06
  | MsgType.WILLTOPIC => 0x07
  | MsgType.WILLMSGREQ => 0x08
  | MsgType.WILLMSG => 0x09
  | MsgType.REGISTER => 0x0A
  | MsgType.REGACK => 0x0B
  | MsgType.PUBLISH => 0x0C
  | MsgType.PUBACK => 0x0D
  | MsgType.PUBCOMP => 0x0E
  | MsgType.PUBREC => 0x0F
  | MsgType.PUBREL => 0x10
  | MsgType.SUBSCRIBE => 0x12
  | MsgType.SUBACK => 0x13
  | MsgType.UNSUBSCRIBE => 0x14
  | MsgType.UNSUBACK => 0x15
  | MsgType.PINGREQ => 0x16
  | MsgType.PINGRESP => 0x17
  | MsgType.DISCONNECT => 0x18
  | MsgType.WILLTOPICUPD => 0x1A
  | MsgType.WILLTOPICRESP => 0x1B
  | MsgType.WILLMSGUPD => 0x1C
  | MsgType.WILLMSGRESP => 0x1D

/-- The embedded universe of MQTT-SN messages for the codec round-trip: one
constructor per packet type the spec lists (the full MQTT-SN v1.2 set plus
the custom AUTH).  PUBACK is embedded from src (puback.go); the remaining
types are modelled from the spec's framing and field rules ("Field formats
follow MQTT-SN 1.2") and the marshalling tests under src/messages/ (their
codec sources are not under src/).  Return-code bytes are kept as raw bytes,
as in the source (`ReturnCode(returnCodeByte)` does not validate).  For
SUBSCRIBE/UNSUBSCRIBE exactly one of the topic id and the topic name is
populated, as in the source message structs. -/
inductive SnMessage
  | advertise (gwId duration : Nat)
  | searchGw (radius : Nat)
  | gwInfo (gwId : Nat) (gwAdd : List Nat)
  | auth (method : Nat) (authData : List Nat)
  | connect (will cleanSession : Bool) (protocolId duration : Nat)
      (clientId : List Nat)
  | connack (returnCode : Nat)
  | willTopicReq
  | willTopic (qos : Nat) (retain : Bool) (topic : List Nat)
  | willMsgReq
  | willMsg (msg : List Nat)
  | register (topicId msgId : Nat) (topicName : List Nat)
  | regack (topicId msgId returnCode : Nat)
  | publish (dup : Bool) (qos : Nat) (retain : Bool) (topicIdType : TopicIdType)
      (topicId msgId : Nat) (pdata : List Nat)
  | puback (topicId msgId returnCode : Nat)
  | pubcomp (msgId : Nat)
  | pubrec (msgId : Nat)
  | pubrel (msgId : Nat)
  | subscribe (dup : Bool) (qos : Nat) (topicIdType : TopicIdType)
      (msgId topicId : Nat) (topicName : List Nat)
  | suback (qos : Nat) (topicId msgId returnCode : Nat)
  | unsubscribe (topicIdType : TopicIdType) (msgId topicId : Nat)
      (topicName : List Nat)
  | unsuback (msgId : Nat)
  | pingreq (clientId : List Nat)
  | pingresp
  | disconnect (duration : Nat)
  | willTopicUpd (qos : Nat) (retain : Bool) (topic : List Nat)
  | willTopicResp (returnCode : Nat)
  | willMsgUpd (msg : List Nat)
  | willMsgResp (returnCode : Nat)
  deriving DecidableEq, Repr

/-- Frame a variable part with the MQTT-SN header: [Length][MsgType][VarPart],
where Length is one byte when the total length is below 256 and otherwise
0x01 followed by the 2-byte big-endian total length (the total includes the
length bytes themselves). -/
def packMessage (typeCode : Nat) (varPart : List Nat) : List Nat :=
  if varPart.length + 2 < 256 then
    (varPart.length + 2) :: typeCode :: varPart
  else
    1 :: encodeUint16 (varPart.length + 4) ++ typeCode :: varPart

/-- The two topic-id-type wire bits of the Flags byte. -/
def titCode : TopicIdType → Nat
  | TopicIdType.TIT_REGISTERED => 0
  | TopicIdType.TIT_PREDEFINED => 1
  | TopicIdType.TIT_SHORT => 2
  | TopicIdType.TIT_STRING => 3

/-- Decode of the two topic-id-type wire bits. -/
def titOfCode (n : Nat) : TopicIdType :=
  match n with
  | 0 => TopicIdType.TIT_REGISTERED
  | 1 => TopicIdType.TIT_PREDEFINED
  | 2 => TopicIdType.TIT_SHORT
  | _ => TopicIdType.TIT_STRING

/-- The MQTT-SN Flags byte: DUP(bit 7), QoS(bits 6-5; value 3 encodes
QoS -1), Retain(bit 4), Will(bit 3), CleanSession(bit 2),
TopicIdType(bits 1-0).  Each message uses the fields it defines and leaves
the rest zero. -/
def snFlags (dup : Bool) (qos : Nat) (retain will clean : Bool) (tit : Nat) : Nat :=
  (if dup then 128 else 0) + qos * 32 + (if retain then 16 else 0) +
    (if will then 8 else 0) + (if clean then 4 else 0) + tit

/-- Serialization (`Write`) of each embedded message.  Field layouts follow
MQTT-SN v1.2: PUBACK/REGACK are TopicID(2) MessageID(2) ReturnCode(1)
(puback.go for PUBACK; the REGACK test fixes total length 7),
PUBREC/PUBREL/PUBCOMP/UNSUBACK are MessageID(2), DISCONNECT is Duration(2),
SEARCHGW is Radius(1), ADVERTISE is GwId(1) Duration(2), GWINFO is GwId(1)
GwAdd(rest), AUTH is Method(1) Data(rest), CONNECT is Flags(1) ProtocolID(1)
Duration(2) ClientID(rest), CONNACK/WILLTOPICRESP/WILLMSGRESP are
ReturnCode(1), WILLTOPIC/WILLTOPICUPD are Flags(1) WillTopic(rest),
WILLMSG/WILLMSGUPD are WillMsg(rest), REGISTER is TopicID(2) MessageID(2)
TopicName(rest), PUBLISH is Flags(1) TopicID(2) MessageID(2) Data(rest),
SUBSCRIBE/UNSUBSCRIBE are Flags(1) MessageID(2) then TopicName(rest) or
TopicID(2) by topic-id type, SUBACK is Flags(1) TopicID(2) MessageID(2)
ReturnCode(1), PINGREQ is ClientID(rest), and
WILLTOPICREQ/WILLMSGREQ/PINGRESP are empty. -/
def writeMessage : SnMessage → List Nat
  | SnMessage.advertise g d =>
    packMessage (msgTypeCode MsgType.ADVERTISE) (g :: encodeUint16 d)
  | SnMessage.searchGw r =>
    packMessage (msgTypeCode MsgType.SEARCHGW) [r]
  | SnMessage.gwInfo g addr =>
    packMessage (msgTypeCode MsgType.GWINFO) (g :: addr)
  | SnMessage.auth m d =>
    packMessage (msgTypeCode MsgType.AUTH) (m :: d)
  | SnMessage.connect w c pid dur cid =>
    packMessage (msgTypeCode MsgType.CONNECT)
      (snFlags false 0 false w c 0 :: pid :: encodeUint16 dur ++ cid)
  | SnMessage.connack rc =>
    packMessage (msgTypeCode MsgType.CONNACK) [rc]
  | SnMessage.willTopicReq =>
    packMessage (msgTypeCode MsgType.WILLTOPICREQ) []
  | SnMessage.willTopic q r t =>
    packMessage (msgTypeCode MsgType.WILLTOPIC)
      (snFlags false q r false false 0 :: t)
  | SnMessage.willMsgReq =>
    packMessage (msgTypeCode MsgType.WILLMSGREQ) []
  | SnMessage.willMsg msg =>
    packMessage (msgTypeCode MsgType.WILLMSG) msg
  | SnMessage.register tid mid name =>
    packMessage (msgTypeCode MsgType.REGISTER)
      (encodeUint16 tid ++ encodeUint16 mid ++ name)
  | SnMessage.regack tid mid rc =>
    packMessage (msgTypeCode MsgType.REGACK)
      (encodeUint16 tid ++ encodeUint16 mid ++ [rc])
  | SnMessage.publish d q r tit tid mid dat =>
    packMessage (msgTypeCode MsgType.PUBLISH)
      (snFlags d q r false false (titCode tit) ::
        encodeUint16 tid ++ encodeUint16 mid ++ dat)
  | SnMessage.puback tid mid rc =>
    packMessage (msgTypeCode MsgType.PUBACK)
      (encodeUint16 tid ++ encodeUint16 mid ++ [rc])
  | SnMessage.pubcomp mid =>
    packMessage (msgTypeCode MsgType.PUBCOMP) (encodeUint16 mid)
  | SnMessage.pubrec mid =>
    packMessage (msgTypeCode MsgType.PUBREC) (encodeUint16 mid)
  | SnMessage.pubrel mid =>
    packMessage (msgTypeCode MsgType.PUBREL) (encodeUint16 mid)
  | SnMessage.subscribe d q tit mid tid name =>
    packMessage (msgTypeCode MsgType.SUBSCRIBE)
      (snFlags d q false false false (titCode tit) :: encodeUint16 mid ++
        (if tit = TopicIdType.TIT_STRING then name else encodeUint16 tid))
  | SnMessage.suback q tid mid rc =>
    packMessage (msgTypeCode MsgType.SUBACK)
      (snFlags false q false false false 0 ::
        encodeUint16 tid ++ encodeUint16 mid ++ [rc])
  | SnMessage.unsubscribe tit mid tid name =>
    packMessage (msgTypeCode MsgType.UNSUBSCRIBE)
      (snFlags false 0 false false false (titCode tit) :: encodeUint16 mid ++
        (if tit = TopicIdType.TIT_STRING then name else encodeUint16 tid))
  | SnMessage.unsuback mid =>
    packMessage (msgTypeCode MsgType.UNSUBACK) (encodeUint16 mid)
  | SnMessage.pingreq cid =>
    packMessage (msgTypeCode MsgType.PINGREQ) cid
  | SnMessage.pingresp =>
    packMessage (msgTypeCode MsgType.PINGRESP) []
  | SnMessage.disconnect dur =>
    packMessage (msgTypeCode MsgType.DISCONNECT) (encodeUint16 dur)
  | SnMessage.willTopicUpd q r t =>
    packMessage (msgTypeCode MsgType.WILLTOPICUPD)
      (snFlags false q r false false 0 :: t)
  | SnMessage.willTopicResp rc =>
    packMessage (msgTypeCode MsgType.WILLTOPICRESP) [rc]
  | SnMessage.willMsgUpd msg =>
    packMessage (msgTypeCode MsgType.WILLMSGUPD) msg
  | SnMessage.willMsgResp rc =>
    packMessage (msgTypeCode MsgType.WILLMSGRESP) [rc]

/-- Split a packet into its type code and variable part, checking that the
length field matches the packet ("whole packets" transport assumption). -/
def unpackHeader (bs : List Nat) : Option (Nat × List Nat) :=
  match bs with
  | [] => none
  | len :: rest =>
    if len = 1 then
      match rest with
      | hi :: lo :: tc :: vp =>
        if hi * 256 + lo = vp.length + 4 then some (tc, vp) else none
      | _ => none
    else
      match rest with
      | tc :: vp => if len = vp.length + 2 then some (tc, vp) else none
      | _ => none

/-- The message type denoted by a wire type code, if any (unknown codes are a
parse error). -/
def msgTypeOfCode (tc : Nat) : Option MsgType :=
  match tc with
  | 0x00 => some MsgType.ADVERTISE
  | 0x01 => some MsgType.SEARCHGW
  | 0x02 => some MsgType.GWINFO
  | 0x03 => some MsgType.AUTH
  | 0x04 => some MsgType.CONNECT
  | 0x05 => some MsgType.CONNACK
  | 0x06 => some MsgType.WILLTOPICREQ
  | 0x07 => some MsgType.WILLTOPIC
  | 0x08 => some MsgType.WILLMSGREQ
  | 0x09 => some MsgType.WILLMSG
  | 0x0A => some MsgType.REGISTER
  | 0x0B => some MsgType.REGACK
  | 0x0C => some MsgType.PUBLISH
  | 0x0D => some MsgType.PUBACK
  | 0x0E => some MsgType.PUBCOMP
  | 0x0F => some MsgType.PUBREC
  | 0x10 => some MsgType.PUBREL
  | 0x12 => some MsgType.SUBSCRIBE
  | 0x13 => some MsgType.SUBACK
  | 0x14 => some MsgType.UNSUBSCRIBE
  | 0x15 => some MsgType.UNSUBACK
  | 0x16 => some MsgType.PINGREQ
  | 0x17 => some MsgType.PINGRESP
  | 0x18 => some MsgType.DISCONNECT
  | 0x1A => some MsgType.WILLTOPICUPD
  | 0x1B => some MsgType.WILLTOPICRESP
  | 0x1C => some MsgType.WILLMSGUPD
  | 0x1D => some MsgType.WILLMSGRESP
  | _ => none

/-- Parse the variable part of each embedded message type (`Unpack`;
`ReadPacket` dispatches on the type code).  Flag bits are decoded
arithmetically from the Flags byte. -/
def unpackMessage (mt : MsgType) (vp : List Nat) : Option SnMessage :=
  match mt, vp with
  | MsgType.ADVERTISE, [g, d1, d2] =>
    some (SnMessage.advertise g (d1 * 256 + d2))
  | MsgType.SEARCHGW, [r] => some (SnMessage.searchGw r)
  | MsgType.GWINFO, g :: addr => some (SnMessage.gwInfo g addr)
  | MsgType.AUTH, m :: d => some (SnMessage.auth m d)
  | MsgType.CONNECT, f :: pid :: d1 :: d2 :: cid =>
    some (SnMessage.connect (f / 8 % 2 == 1) (f / 4 % 2 == 1) pid
      (d1 * 256 + d2) cid)
  | MsgType.CONNACK, [rc] => some (SnMessage.connack rc)
  | MsgType.WILLTOPICREQ, [] => some SnMessage.willTopicReq
  | MsgType.WILLTOPIC, f :: t =>
    some (SnMessage.willTopic (f / 32 % 4) (f / 16 % 2 == 1) t)
  | MsgType.WILLMSGREQ, [] => some SnMessage.willMsgReq
  | MsgType.WILLMSG, msg => some (SnMessage.willMsg msg)
  | MsgType.REGISTER, t1 :: t2 :: m1 :: m2 :: name =>
    some (SnMessage.register (t1 * 256 + t2) (m1 * 256 + m2) name)
  | MsgType.REGACK, [t1, t2, m1, m2, rc] =>
    some (SnMessage.regack (t1 * 256 + t2) (m1 * 256 + m2) rc)
  | MsgType.PUBLISH, f :: t1 :: t2 :: m1 :: m2 :: dat =>
    some (SnMessage.publish (f / 128 % 2 == 1) (f / 32 % 4) (f / 16 % 2 == 1)
      (titOfCode (f % 4)) (t1 * 256 + t2) (m1 * 256 + m2) dat)
  | MsgType.PUBACK, [t1, t2, m1, m2, rc] =>
    some (SnMessage.puback (t1 * 256 + t2) (m1 * 256 + m2) rc)
  | MsgType.PUBCOMP, [m1, m2] => some (SnMessage.pubcomp (m1 * 256 + m2))
  | MsgType.PUBREC, [m1, m2] => some (SnMessage.pubrec (m1 * 256 + m2))
  | MsgType.PUBREL, [m1, m2] => some (SnMessage.pubrel (m1 * 256 + m2))
  | MsgType.SUBSCRIBE, f :: m1 :: m2 :: rest =>
    if titOfCode (f % 4) = TopicIdType.TIT_STRING then
      some (SnMessage.subscribe (f / 128 % 2 == 1) (f / 32 % 4)
        TopicIdType.TIT_STRING (m1 * 256 + m2) 0 rest)
    else
      match rest with
      | [t1, t2] =>
        some (SnMessage.subscribe (f / 128 % 2 == 1) (f / 32 % 4)
          (titOfCode (f % 4)) (m1 * 256 + m2) (t1 * 256 + t2) [])
      | _ => none
  | MsgType.SUBACK, [f, t1, t2, m1, m2, rc] =>
    some (SnMessage.suback (f / 32 % 4) (t1 * 256 + t2) (m1 * 256 + m2) rc)
  | MsgType.UNSUBSCRIBE, f :: m1 :: m2 :: rest =>
    if titOfCode (f % 4) = TopicIdType.TIT_STRING then
      some (SnMessage.unsubscribe TopicIdType.TIT_STRING (m1 * 256 + m2) 0 rest)
    else
      match rest with
      | [t1, t2] =>
        some (SnMessage.unsubscribe (titOfCode (f % 4)) (m1 * 256 + m2)
          (t1 * 256 + t2) [])
      | _ => none
  | MsgType.UNSUBACK, [m1, m2] => some (SnMessage.unsuback (m1 * 256 + m2))
  | MsgType.PINGREQ, cid => some (SnMessage.pingreq cid)
  | MsgType.PINGRESP, [] => some SnMessage.pingresp
  | MsgType.DISCONNECT, [d1, d2] => some (SnMessage.disconnect (d1 * 256 + d2))
  | MsgType.WILLTOPICUPD, f :: t =>
    some (SnMessage.willTopicUpd (f / 32 % 4) (f / 16 % 2 == 1) t)
  | MsgType.WILLTOPICRESP, [rc] => some (SnMessage.willTopicResp rc)
  | MsgType.WILLMSGUPD, msg => some (SnMessage.willMsgUpd msg)
  | MsgType.WILLMSGRESP, [rc] => some (SnMessage.willMsgResp rc)
  | _, _ => none

/-- Full packet parse: header, then the type code, then the type-specific
variable part (`messages.ReadPacket`). -/
def readSnPacket (bs : List Nat) : Option SnMessage :=
  match unpackHeader bs with
  | none => none
  | some (tc, vp) =>
    match msgTypeOfCode tc with
    | none => none
    | some mt => unpackMessage mt vp

/-- Well-formedness of a message value: every field fits its wire width, and
for SUBSCRIBE/UNSUBSCRIBE exactly one of topic id and topic name is
populated, matching the topic-id type. -/
def wfMessage : SnMessage → Prop
  | SnMessage.advertise g d => g < 256 ∧ d < 65536
  | SnMessage.searchGw r => r < 256
  | SnMessage.gwInfo g addr =>
    g < 256 ∧ (∀ b ∈ addr, b < 256) ∧ addr.length + 16 < 65536
  | SnMessage.auth m d =>
    m < 256 ∧ (∀ b ∈ d, b < 256) ∧ d.length + 16 < 65536
  | SnMessage.connect _ _ pid dur cid =>
    pid < 256 ∧ dur < 65536 ∧ (∀ b ∈ cid, b < 256) ∧ cid.length + 16 < 65536
  | SnMessage.connack rc => rc < 256
  | SnMessage.willTopicReq => True
  | SnMessage.willTopic q _ t =>
    q ≤ 3 ∧ (∀ b ∈ t, b < 256) ∧ t.length + 16 < 65536
  | SnMessage.willMsgReq => True
  | SnMessage.willMsg msg => (∀ b ∈ msg, b < 256) ∧ msg.length + 16 < 65536
  | SnMessage.register tid mid name =>
    tid < 65536 ∧ mid < 65536 ∧ (∀ b ∈ name, b < 256) ∧
      name.length + 16 < 65536
  | SnMessage.regack tid mid rc => tid < 65536 ∧ mid < 65536 ∧ rc < 256
  | SnMessage.publish _ q _ _ tid mid dat =>
    q ≤ 3 ∧ tid < 65536 ∧ mid < 65536 ∧ (∀ b ∈ dat, b < 256) ∧
      dat.length + 16 < 65536
  | SnMessage.puback tid mid rc => tid < 65536 ∧ mid < 65536 ∧ rc < 256
  | SnMessage.pubcomp mid => mid < 65536
  | SnMessage.pubrec mid => mid < 65536
  | SnMessage.pubrel mid => mid < 65536
  | SnMessage.subscribe _ q tit mid tid name =>
    q ≤ 3 ∧ mid < 65536 ∧ tid < 65536 ∧ (∀ b ∈ name, b < 256) ∧
      name.length + 16 < 65536 ∧
      (tit = TopicIdType.TIT_STRING → tid = 0) ∧
      (tit ≠ TopicIdType.TIT_STRING → name = [])
  | SnMessage.suback q tid mid rc =>
    q ≤ 3 ∧ tid < 65536 ∧ mid < 65536 ∧ rc < 256
  | SnMessage.unsubscribe tit mid tid name =>
    mid < 65536 ∧ tid < 65536 ∧ (∀ b ∈ name, b < 256) ∧
      name.length + 16 < 65536 ∧
      (tit = TopicIdType.TIT_STRING → tid = 0) ∧
      (tit ≠ TopicIdType.TIT_STRING → name = [])
  | SnMessage.unsuback mid => mid < 65536
  | SnMessage.pingreq cid => (∀ b ∈ cid, b < 256) ∧ cid.length + 16 < 65536
  | SnMessage.pingresp => True
  | SnMessage.disconnect d => d < 65536
  | SnMessage.willTopicUpd q _ t =>
    q ≤ 3 ∧ (∀ b ∈ t, b < 256) ∧ t.length + 16 < 65536
  | SnMessage.willTopicResp rc => rc < 256
  | SnMessage.willMsgUpd msg => (∀ b ∈ msg, b < 256) ∧ msg.length + 16 < 65536
  | SnMessage.willMsgResp rc => rc < 256

/-- C4: on an MQTT CONNACK with return code Accepted, the CONNECT transaction
sets the handler state to ACTIVE strictly before the SN CONNACK(ACCEPTED) is
emitted to the client (so a packet arriving after the CONNACK emission
observes StateActive), and the transaction then succeeds. -/
theorem connack_accepted_active_before_snConnack :
    ∃ i j : Nat, i < j ∧
      (connackEvents mqttAccepted).get? i =
        some (TxEvent.setState HandlerState.StateActive) ∧
      (connackEvents mqttAccepted).get? j =
        some (TxEvent.snSend (SnOut.connack ReturnCode.RC_ACCEPTED)) ∧
      runEvents HandlerState.StateDisconnected ((connackEvents mqttAccepted).take j) =
        HandlerState.StateActive ∧
      outcomeOf (connackEvents mqttAccepted) = some TxOutcome.success := by
  refine ⟨0, 1, ?_, ?_, ?_, ?_, ?_⟩ <;> decide

/-- C5: on an MQTT CONNACK with any return code other than Accepted, the
gateway sends SN CONNACK(RC_CONGESTION) to the client, the transaction fails
with an error naming the broker's return code, the handler terminates (the
completion watcher surfaces the error to the handler group), and the handler
state stays StateDisconnected. -/
theorem connack_refused_congestion_fails (rc : Nat) (h : rc ≠ mqttAccepted) :
    TxEvent.snSend (SnOut.connack ReturnCode.RC_CONGESTION) ∈ connackEvents rc ∧
    outcomeOf (connackEvents rc) =
      some (TxOutcome.failed (TxError.brokerRefused rc)) ∧
    connectWatchExit (TxOutcome.failed (TxError.brokerRefused rc)) =
      some (TxError.brokerRefused rc) ∧
    runEvents HandlerState.StateDisconnected (connackEvents rc) =
      HandlerState.StateDisconnected := by
  refine ⟨?_, ?_, ?_, ?_⟩ <;>
    simp [connackEvents, h, outcomeOf, connectWatchExit, runEvents, applyEvent]

/-- Witness for `connack_refused_congestion_fails` at the broker return code 5
(ErrRefusedNotAuthorised), the code used by TestAuthFail. -/
theorem connack_refused_congestion_fails_witness :
    (5 : Nat) ≠ mqttAccepted ∧
    (TxEvent.snSend (SnOut.connack ReturnCode.RC_CONGESTION) ∈ connackEvents 5 ∧
     outcomeOf (connackEvents 5) =
       some (TxOutcome.failed (TxError.brokerRefused 5)) ∧
     connectWatchExit (TxOutcome.failed (TxError.brokerRefused 5)) =
       some (TxError.brokerRefused 5) ∧
     runEvents HandlerState.StateDisconnected (connackEvents 5) =
       HandlerState.StateDisconnected) :=
  ⟨by decide, connack_refused_congestion_fails 5 (by decide)⟩

/-- C3: receiving a second SN CONNECT while a CONNECT transaction T1 is live
cancels T1 — its Done signal fires with the cancelled sentinel, its finalizer
removes it from the table, and the completion watcher does not report the
cancellation as a handler error — and installs a distinct fresh transaction
T2; each of the two CONNECTs is forwarded to the broker as an MQTT CONNECT. -/
theorem repeated_connect_cancels_first (mq : ConnectPacket)
    (hw : mq.willFlag = false) :
    ∃ t1 t2 : ConnectTx,
      (handleSnConnect initialHandlerConnSt false mq).connectTx = some t1 ∧
      (handleSnConnect (handleSnConnect initialHandlerConnSt false mq) false mq).connectTx
        = some t2 ∧
      t1 ≠ t2 ∧
      (handleSnConnect (handleSnConnect initialHandlerConnSt false mq) false mq).doneLog
        = [(t1.txId, TxOutcome.failed TxError.cancelled)] ∧
      connectWatchExit (TxOutcome.failed TxError.cancelled) = none ∧
      (handleSnConnect initialHandlerConnSt false mq).events = [TxEvent.mqttSend mq] ∧
      (handleSnConnect (handleSnConnect initialHandlerConnSt false mq) false mq).events
        = [TxEvent.mqttSend mq, TxEvent.mqttSend mq] := by
  refine ⟨{ txId := 0 }, { txId := 1 }, ?_, ?_, ?_, ?_, ?_, ?_, ?_⟩ <;>
    simp [handleSnConnect, initialHandlerConnSt, connectStart, hw, connectWatchExit]

/-- A concrete MQTT CONNECT skeleton (the one TestRepeatedConnect builds:
client id "test-client" as bytes is irrelevant to the control flow, a single
byte stands in). -/
def mqSample : ConnectPacket :=
  { clientIdentifier := [116], cleanSession := true, keepalive := 1,
    protocolVersion := 4, protocolName := "MQTT",
    willFlag := false, willQos := 0, willRetain := false,
    willTopic := [], willMessage := [],
    usernameFlag := false, username := [], passwordFlag := false, password := [] }

/-- Witness for `repeated_connect_cancels_first` at the sample CONNECT. -/
theorem repeated_connect_cancels_first_witness :
    mqSample.willFlag = false ∧
    (∃ t1 t2 : ConnectTx,
      (handleSnConnect initialHandlerConnSt false mqSample).connectTx = some t1 ∧
      (handleSnConnect (handleSnConnect initialHandlerConnSt false mqSample) false mqSample).connectTx
        = some t2 ∧
      t1 ≠ t2 ∧
      (handleSnConnect (handleSnConnect initialHandlerConnSt false mqSample) false mqSample).doneLog
        = [(t1.txId, TxOutcome.failed TxError.cancelled)] ∧
      connectWatchExit (TxOutcome.failed TxError.cancelled) = none ∧
      (handleSnConnect initialHandlerConnSt false mqSample).events
        = [TxEvent.mqttSend mqSample] ∧
      (handleSnConnect (handleSnConnect initialHandlerConnSt false mqSample) false mqSample).events
        = [TxEvent.mqttSend mqSample, TxEvent.mqttSend mqSample]) :=
  ⟨rfl, repeated_connect_cancels_first mqSample rfl⟩

/-- C10: a protocol message delivered to a transaction whose state does not
expect it leaves the transaction unchanged — no state change, no emitted
message, no completion: a client QoS 1 publish transaction ignores PUBACK
unless in awaitingPuback, and a broker-side publish transaction ignores
REGACK unless in awaitingRegack. -/
theorem unexpected_message_is_ignored
    (t : PubQos1Tx) (pb : PubackData) (u : BrokerPubTx) (rg : RegackData)
    (ns : GwTransactionState)
    (h1 : t.state ≠ GwTransactionState.awaitingPuback)
    (h2 : u.state ≠ GwTransactionState.awaitingRegack) :
    pq1Puback t pb = (t, []) ∧ bptRegack u rg ns = (u, []) := by
  constructor <;> simp [pq1Puback, bptRegack, h1, h2]

/-- Witness for `unexpected_message_is_ignored` on concrete transactions in
state awaitingPubrel. -/
theorem unexpected_message_is_ignored_witness :
    ({ state := GwTransactionState.awaitingPubrel, completed := none } : PubQos1Tx).state
        ≠ GwTransactionState.awaitingPuback ∧
    ({ state := GwTransactionState.awaitingPubrel,
       data := { topicId := 1, topicName := "t", msgId := 2 },
       snPublish := { topicId := 1, topicIdType := TopicIdType.TIT_REGISTERED,
                      msgId := 2, qos := 1, dup := false, data := [1] },
       registeredTopics := [], completed := none } : BrokerPubTx).state
        ≠ GwTransactionState.awaitingRegack ∧
    (pq1Puback { state := GwTransactionState.awaitingPubrel, completed := none }
        { topicId := 1, msgId := 2, returnCode := ReturnCode.RC_ACCEPTED }
      = ({ state := GwTransactionState.awaitingPubrel, completed := none }, []) ∧
     bptRegack
        { state := GwTransactionState.awaitingPubrel,
          data := { topicId := 1, topicName := "t", msgId := 2 },
          snPublish := { topicId := 1, topicIdType := TopicIdType.TIT_REGISTERED,
                         msgId := 2, qos := 1, dup := false, data := [1] },
          registeredTopics := [], completed := none }
        { topicId := 1, msgId := 2, returnCode := ReturnCode.RC_ACCEPTED }
        GwTransactionState.awaitingPuback
      = ({ state := GwTransactionState.awaitingPubrel,
           data := { topicId := 1, topicName := "t", msgId := 2 },
           snPublish := { topicId := 1, topicIdType := TopicIdType.TIT_REGISTERED,
                          msgId := 2, qos := 1, dup := false, data := [1] },
           registeredTopics := [], completed := none }, [])) :=
  ⟨by decide, by decide,
   unexpected_message_is_ignored _ _ _ _ _ (by decide) (by decide)⟩

/-- With the PUBACK arriving after n dropped ticks and n retry attempts still
available, the AWAITING_PUBACK loop produces exactly n DUP resends, forwards
one MQTT PUBACK with the transaction's message id, and succeeds. -/
theorem qos1Await_ack (mid : Nat) : ∀ (n left : Nat), n ≤ left →
    qos1Await mid (some n) left =
      { snPublishes := List.replicate n { dup := true, msgId := mid },
        mqttPubacks := [mid], outcome := TxOutcome.success }
  | 0, _, _ => by simp [qos1Await]
  | n + 1, left + 1, h => by
    have ih := qos1Await_ack mid n left (Nat.le_of_succ_le_succ h)
    simp [qos1Await, ih, List.replicate_succ]
  | n + 1, 0, h => absurd h (by omega)

/-- With no PUBACK ever arriving, the AWAITING_PUBACK loop resends once per
remaining retry attempt and then fails with retry exhaustion. -/
theorem qos1Await_noack (mid : Nat) : ∀ left : Nat,
    qos1Await mid none left =
      { snPublishes := List.replicate left { dup := true, msgId := mid },
        mqttPubacks := [], outcome := TxOutcome.failed TxError.retryExhausted }
  | 0 => by simp [qos1Await]
  | left + 1 => by
    simp [qos1Await, qos1Await_noack mid left, List.replicate_succ]

/-- C2: in a broker-side QoS 1 publish run in which the client drops
n ≤ RetryCount consecutive PUBACKs and then replies, it receives exactly
n + 1 SN PUBLISH messages for the message id — the first with DUP=false and
the later ones with DUP=true — the gateway forwards a single MQTT PUBACK
with the same message id and the transaction succeeds with no further
resends; in a run with no PUBACK at all, only RetryCount + 1 PUBLISHes are
ever sent (so after RetryCount drops no further PUBLISH follows) and the
transaction fails with retry exhaustion. -/
theorem broker_qos1_retry (mid rc n : Nat) (h : n ≤ rc) :
    (brokerQos1Run mid rc (some n)).snPublishes =
      { dup := false, msgId := mid } ::
        List.replicate n { dup := true, msgId := mid } ∧
    (brokerQos1Run mid rc (some n)).snPublishes.length = n + 1 ∧
    (brokerQos1Run mid rc (some n)).mqttPubacks = [mid] ∧
    (brokerQos1Run mid rc (some n)).outcome = TxOutcome.success ∧
    (brokerQos1Run mid rc none).snPublishes.length = rc + 1 ∧
    (brokerQos1Run mid rc none).outcome =
      TxOutcome.failed TxError.retryExhausted := by
  refine ⟨?_, ?_, ?_, ?_, ?_, ?_⟩ <;>
    simp [brokerQos1Run, qos1Await_ack mid n rc h, qos1Await_noack]

/-- Witness for `broker_qos1_retry` at the test's configuration: RetryCount 2
and two dropped PUBACKs (TestSubscribeQOS1). -/
theorem broker_qos1_retry_witness :
    (2 : Nat) ≤ 2 ∧
    ((brokerQos1Run 7 2 (some 2)).snPublishes =
      { dup := false, msgId := 7 } ::
        List.replicate 2 { dup := true, msgId := 7 } ∧
    (brokerQos1Run 7 2 (some 2)).snPublishes.length = 2 + 1 ∧
    (brokerQos1Run 7 2 (some 2)).mqttPubacks = [7] ∧
    (brokerQos1Run 7 2 (some 2)).outcome = TxOutcome.success ∧
    (brokerQos1Run 7 2 none).snPublishes.length = 2 + 1 ∧
    (brokerQos1Run 7 2 none).outcome =
      TxOutcome.failed TxError.retryExhausted) :=
  ⟨by decide, broker_qos1_retry 7 2 2 (by decide)⟩

/-- A packet received in state DISCONNECTED that is none of the legal types
is dispatched to termination. -/
theorem dispatchDisconnected_illegal (auth : Bool) (p : SnPacketInfo)
    (hc : p.mtype ≠ MsgType.CONNECT) (hs : p.mtype ≠ MsgType.SEARCHGW)
    (ha : advertiseRelated p.mtype = false)
    (hp : ¬(p.mtype = MsgType.PUBLISH ∧ p.qos = 3 ∧
            (p.topicIdType = TopicIdType.TIT_PREDEFINED ∨
             p.topicIdType = TopicIdType.TIT_SHORT) ∧
            auth = false)) :
    dispatchDisconnected auth p = DispatchResult.terminate := by
  obtain ⟨mt, q, tit⟩ := p
  cases mt <;> simp_all [dispatchDisconnected, advertiseRelated]

/-- C1: any SN packet received in state DISCONNECTED that is not CONNECT,
SEARCHGW, advertise-related, or a QoS -1 PUBLISH on a predefined or short
topic with authentication disabled makes the handler terminate and close the
MQTT connection, forwarding nothing and sending nothing (in particular no
DISCONNECT) to the client.  In particular a QoS -1 PUBLISH on a registered
topic, or on a short topic with authentication enabled, is rejected this
way, while a QoS -1 PUBLISH on a short or predefined topic with
authentication disabled is forwarded to the broker as an MQTT PUBLISH. -/
theorem disconnected_dispatch (auth : Bool) (p : SnPacketInfo)
    (hc : p.mtype ≠ MsgType.CONNECT) (hs : p.mtype ≠ MsgType.SEARCHGW)
    (ha : advertiseRelated p.mtype = false)
    (hp : ¬(p.mtype = MsgType.PUBLISH ∧ p.qos = 3 ∧
            (p.topicIdType = TopicIdType.TIT_PREDEFINED ∨
             p.topicIdType = TopicIdType.TIT_SHORT) ∧
            auth = false)) :
    (dispatchEffects (dispatchDisconnected auth p)).terminated = true ∧
    (dispatchEffects (dispatchDisconnected auth p)).mqttClosed = true ∧
    (dispatchEffects (dispatchDisconnected auth p)).forwardedToBroker = false ∧
    (dispatchEffects (dispatchDisconnected auth p)).snSentTypes = [] ∧
    dispatchDisconnected auth
        { mtype := MsgType.PUBLISH, qos := 3,
          topicIdType := TopicIdType.TIT_REGISTERED }
      = DispatchResult.terminate ∧
    dispatchDisconnected true
        { mtype := MsgType.PUBLISH, qos := 3, topicIdType := TopicIdType.TIT_SHORT }
      = DispatchResult.terminate ∧
    dispatchDisconnected false
        { mtype := MsgType.PUBLISH, qos := 3, topicIdType := TopicIdType.TIT_SHORT }
      = DispatchResult.forwardPublish
          { mtype := MsgType.PUBLISH, qos := 3, topicIdType := TopicIdType.TIT_SHORT } ∧
    (dispatchEffects (dispatchDisconnected false
        { mtype := MsgType.PUBLISH, qos := 3,
          topicIdType := TopicIdType.TIT_SHORT })).forwardedToBroker = true ∧
    dispatchDisconnected false
        { mtype := MsgType.PUBLISH, qos := 3,
          topicIdType := TopicIdType.TIT_PREDEFINED }
      = DispatchResult.forwardPublish
          { mtype := MsgType.PUBLISH, qos := 3,
            topicIdType := TopicIdType.TIT_PREDEFINED } := by
  rw [dispatchDisconnected_illegal auth p hc hs ha hp]
  refine ⟨rfl, rfl, rfl, rfl, ?_, ?_, ?_, ?_, ?_⟩ <;>
    cases auth <;> decide

/-- Witness for `disconnected_dispatch`: a REGISTER packet received before
CONNECT (TestDisconnectedRegister), with authentication disabled. -/
theorem disconnected_dispatch_witness :
    ({ mtype := MsgType.REGISTER, qos := 0,
       topicIdType := TopicIdType.TIT_REGISTERED } : SnPacketInfo).mtype
        ≠ MsgType.CONNECT ∧
    ({ mtype := MsgType.REGISTER, qos := 0,
       topicIdType := TopicIdType.TIT_REGISTERED } : SnPacketInfo).mtype
        ≠ MsgType.SEARCHGW ∧
    advertiseRelated MsgType.REGISTER = false ∧
    (dispatchEffects (dispatchDisconnected false
        { mtype := MsgType.REGISTER, qos := 0,
          topicIdType := TopicIdType.TIT_REGISTERED })).terminated = true ∧
    (dispatchEffects (dispatchDisconnected false
        { mtype := MsgType.REGISTER, qos := 0,
          topicIdType := TopicIdType.TIT_REGISTERED })).forwardedToBroker = false :=
  ⟨by decide, by decide, by decide,
   (disconnected_dispatch false
      { mtype := MsgType.REGISTER, qos := 0,
        topicIdType := TopicIdType.TIT_REGISTERED }
      (by decide) (by decide) (by decide) (by decide)).1,
   (disconnected_dispatch false
      { mtype := MsgType.REGISTER, qos := 0,
        topicIdType := TopicIdType.TIT_REGISTERED }
      (by decide) (by decide) (by decide) (by decide)).2.2.1⟩

/-- A PUBREL whose topic resolution fails leaves the transaction live and
unchanged: no handlers fire, no PUBCOMP is sent, no completion. -/
theorem bpq2Pubrel_resolve_error (resolve : Option PublishData → Option String)
    (t : BrokerPubQos2) (mid : Nat) (h : resolve t.publish = none) :
    bpq2Pubrel resolve t mid = (t, [], false) := by
  simp [bpq2Pubrel, h]

/-- Witness for `bpq2Pubrel_resolve_error` with an always-failing resolver. -/
theorem bpq2Pubrel_resolve_error_witness :
    (fun (_ : Option PublishData) => (none : Option String))
        ({ publish := none } : BrokerPubQos2).publish = none ∧
    bpq2Pubrel (fun _ => none) { publish := none } 1 =
      ({ publish := none }, [], false) :=
  ⟨rfl, bpq2Pubrel_resolve_error (fun _ => none) { publish := none } 1 rfl⟩

/-- Delivering a PUBLISH always leaves the transaction retaining that
PUBLISH and sends exactly one PUBREC, regardless of whether the transaction
already existed (a resend) or is freshly created. -/
theorem clientQos2Step_publish (resolve : Option PublishData → Option String)
    (tbl : Option BrokerPubQos2) (p : PublishData) :
    clientQos2Step resolve tbl (ClientEv.publish p) =
      (some { publish := some p }, [ClientAction.sendPubrec p.msgId]) := by
  cases tbl with
  | none => rfl
  | some t => cases t; rfl

/-- A run of PUBLISH deliveries produces only PUBRECs and leaves the
transaction retaining the last PUBLISH. -/
theorem clientQos2RunFrom_publishes (resolve : Option PublishData → Option String)
    (p : PublishData) :
    ∀ (j : Nat) (tbl : Option BrokerPubQos2) (rest : List ClientEv),
    clientQos2RunFrom resolve tbl
        (ClientEv.publish p :: (List.replicate j (ClientEv.publish p) ++ rest)) =
      ClientAction.sendPubrec p.msgId ::
        (List.replicate j (ClientAction.sendPubrec p.msgId) ++
          clientQos2RunFrom resolve (some { publish := some p }) rest)
  | 0, tbl, rest => by
    simp [clientQos2RunFrom, clientQos2Step_publish]
  | j + 1, tbl, rest => by
    have ih := clientQos2RunFrom_publishes resolve p j
      (some { publish := some p }) rest
    simp [List.replicate_succ]
    rw [clientQos2RunFrom, clientQos2Step_publish]
    simp [List.replicate_succ] at ih
    simp [ih]

/-- Duplicate PUBRELs after the transaction completed find no live
transaction and produce nothing. -/
theorem clientQos2RunFrom_stray_pubrels
    (resolve : Option PublishData → Option String) (m : Nat) :
    ∀ k : Nat,
    clientQos2RunFrom resolve none (List.replicate k (ClientEv.pubrel m)) = []
  | 0 => rfl
  | k + 1 => by
    simp [List.replicate_succ]
    rw [clientQos2RunFrom]
    simpa [clientQos2Step] using clientQos2RunFrom_stray_pubrels resolve m k

/-- C6: for a broker-side QoS 2 publish whose retained PUBLISH's topic
resolves, the subscription handlers execute exactly once per unique broker
message id, and upon receipt of the PUBREL, not of the PUBLISH: a run of
j + 1 PUBLISH deliveries fires no handler (the PUBLISH is retained), and
appending the PUBREL — followed by any number of duplicate PUBRELs — fires
the handlers exactly once, with the retained PUBLISH, and sends a PUBCOMP. -/
theorem qos2_handlers_fire_on_pubrel
    (resolve : Option PublishData → Option String) (p : PublishData)
    (topic : String) (m j k : Nat) (hres : resolve (some p) = some topic) :
    countFires (clientQos2Run resolve
      (List.replicate (j + 1) (ClientEv.publish p))) = 0 ∧
    clientQos2Run resolve
        (List.replicate (j + 1) (ClientEv.publish p) ++
          ClientEv.pubrel m :: List.replicate k (ClientEv.pubrel m)) =
      List.replicate (j + 1) (ClientAction.sendPubrec p.msgId) ++
        [ClientAction.fireHandlers (some p), ClientAction.sendPubcomp m] ∧
    countFires
        (clientQos2Run resolve
          (List.replicate (j + 1) (ClientEv.publish p) ++
            ClientEv.pubrel m :: List.replicate k (ClientEv.pubrel m))) = 1 ∧
    ClientAction.fireHandlers (some p) ∈
      clientQos2Run resolve
        (List.replicate (j + 1) (ClientEv.publish p) ++
          ClientEv.pubrel m :: List.replicate k (ClientEv.pubrel m)) := by
  have hrun :
      clientQos2Run resolve
          (List.replicate (j + 1) (ClientEv.publish p) ++
            ClientEv.pubrel m :: List.replicate k (ClientEv.pubrel m)) =
        List.replicate (j + 1) (ClientAction.sendPubrec p.msgId) ++
          [ClientAction.fireHandlers (some p), ClientAction.sendPubcomp m] := by
    unfold clientQos2Run
    rw [List.replicate_succ, List.cons_append,
      clientQos2RunFrom_publishes resolve p j none]
    rw [clientQos2RunFrom]
    simp [clientQos2Step, bpq2Pubrel, hres,
      clientQos2RunFrom_stray_pubrels resolve m k, List.replicate_succ]
  have hpub :
      clientQos2Run resolve (List.replicate (j + 1) (ClientEv.publish p)) =
        List.replicate (j + 1) (ClientAction.sendPubrec p.msgId) := by
    unfold clientQos2Run
    rw [List.replicate_succ, ← List.append_nil (List.replicate j (ClientEv.publish p))]
    rw [clientQos2RunFrom_publishes resolve p j none]
    simp [clientQos2RunFrom, List.replicate_succ]
  have hcount0 : ∀ n : Nat,
      countFires (List.replicate n (ClientAction.sendPubrec p.msgId)) = 0 := by
    intro n
    induction n with
    | zero => rfl
    | succ n ih => simpa [List.replicate_succ, countFires, List.filter] using ih
  refine ⟨?_, hrun, ?_, ?_⟩
  · rw [hpub]; exact hcount0 (j + 1)
  · rw [hrun]
    have := hcount0 (j + 1)
    simp [countFires, List.filter_append] at this ⊢
  · rw [hrun]
    simp

/-- The resolver of the C6 witness scenario: the retained PUBLISH resolves
to the subscribed topic of the tests. -/
def resolveSample : Option PublishData → Option String :=
  fun o =>
    match o with
    | none => none
    | some _ => some "test/topic"

/-- Witness for `qos2_handlers_fire_on_pubrel`: one PUBLISH delivery and one
duplicate PUBREL for message id 1, with a resolver that resolves the
retained PUBLISH. -/
theorem qos2_handlers_fire_on_pubrel_witness :
    resolveSample (some { msgId := 1, topicId := 2, data := [3] }) =
      some "test/topic" ∧
    (countFires (clientQos2Run resolveSample
      (List.replicate (0 + 1)
        (ClientEv.publish { msgId := 1, topicId := 2, data := [3] }))) = 0 ∧
    clientQos2Run resolveSample
        (List.replicate (0 + 1)
            (ClientEv.publish { msgId := 1, topicId := 2, data := [3] }) ++
          ClientEv.pubrel 1 :: List.replicate 1 (ClientEv.pubrel 1)) =
      List.replicate (0 + 1) (ClientAction.sendPubrec
          ({ msgId := 1, topicId := 2, data := [3] } : PublishData).msgId) ++
        [ClientAction.fireHandlers (some { msgId := 1, topicId := 2, data := [3] }),
         ClientAction.sendPubcomp 1] ∧
    countFires
        (clientQos2Run resolveSample
          (List.replicate (0 + 1)
              (ClientEv.publish { msgId := 1, topicId := 2, data := [3] }) ++
            ClientEv.pubrel 1 :: List.replicate 1 (ClientEv.pubrel 1))) = 1 ∧
    ClientAction.fireHandlers (some { msgId := 1, topicId := 2, data := [3] }) ∈
      clientQos2Run resolveSample
        (List.replicate (0 + 1)
            (ClientEv.publish { msgId := 1, topicId := 2, data := [3] }) ++
          ClientEv.pubrel 1 :: List.replicate 1 (ClientEv.pubrel 1))) :=
  ⟨rfl, qos2_handlers_fire_on_pubrel resolveSample
    { msgId := 1, topicId := 2, data := [3] } "test/topic" 1 0 1 rfl⟩

/-- A successful topic-id lookup returns an id that is registered for the
topic. -/
theorem findTopicId_mem :
    ∀ (regs : List (Nat × String)) (topic : String) (id : Nat),
    findTopicId regs topic = some id → (id, topic) ∈ regs
  | [], _, _, h => by simp [findTopicId] at h
  | (i, name) :: rest, topic, id, h => by
    by_cases hn : name = topic
    · simp [findTopicId, hn] at h
      simp [h, hn]
    · simp [findTopicId, hn] at h
      exact List.mem_cons_of_mem _ (findTopicId_mem rest topic id h)

/-- C9: the SN SUBACK completing a client SUBSCRIBE carries topic-id 0 when
the subscribed topic contains a wildcard, and otherwise a registered
topic-id in the valid range MinTopicID..MaxTopicID — the already-registered
id when the topic has one, a fresh one otherwise — together with the
SUBSCRIBE's message id and the negotiated QoS. -/
theorem subscribe_suback_fields (r : TopicRegistry) (topic : String)
    (msgId qos : Nat) (hwf : registryWf r) :
    (hasWildcardTopic topic = true →
      (subscribeSuback r topic msgId qos).2.topicId = 0) ∧
    (hasWildcardTopic topic = false →
      MinTopicID ≤ (subscribeSuback r topic msgId qos).2.topicId ∧
      (subscribeSuback r topic msgId qos).2.topicId ≤ MaxTopicID ∧
      ∀ id, findTopicId r.registered topic = some id →
        (subscribeSuback r topic msgId qos).2.topicId = id) ∧
    (subscribeSuback r topic msgId qos).2.msgId = msgId ∧
    (subscribeSuback r topic msgId qos).2.qos = qos := by
  obtain ⟨hroom, hrange⟩ := hwf
  by_cases hw : hasWildcardTopic topic
  · refine ⟨fun _ => by simp [subscribeSuback, hw], fun hnw => ?_, ?_, ?_⟩ <;>
      simp [subscribeSuback, hw] at *
  · refine ⟨fun hww => by simp [hww] at hw, fun _ => ?_, ?_, ?_⟩
    · cases hfind : findTopicId r.registered topic with
      | some id =>
        have hmem := findTopicId_mem r.registered topic id hfind
        have hr := hrange (id, topic) hmem
        refine ⟨?_, ?_, ?_⟩
        · simpa [subscribeSuback, hw, registerTopic, hfind] using hr.1
        · simpa [subscribeSuback, hw, registerTopic, hfind] using hr.2
        · intro id2 hfind2
          have hid : id = id2 := by simpa using hfind2
          subst hid
          simp [subscribeSuback, hw, registerTopic, hfind]
      | none =>
        refine ⟨?_, ?_, ?_⟩
        · simp [subscribeSuback, hw, registerTopic, hfind, MinTopicID]
        · simp only [subscribeSuback, hw, registerTopic, hfind]
          simp [MaxTopicID] at hroom ⊢
          omega
        · intro id2 hfind2
          simp at hfind2
    · simp [subscribeSuback, hw, registerTopic]
    · simp [subscribeSuback, hw, registerTopic]

/-- Witness for `subscribe_suback_fields` on an empty registry and the
non-wildcard topic of the tests. -/
theorem subscribe_suback_fields_witness :
    registryWf { registered := [], lastId := 0 } ∧
    ((hasWildcardTopic "test/topic" = true →
      (subscribeSuback { registered := [], lastId := 0 } "test/topic" 1 0).2.topicId = 0) ∧
    (hasWildcardTopic "test/topic" = false →
      MinTopicID ≤ (subscribeSuback { registered := [], lastId := 0 } "test/topic" 1 0).2.topicId ∧
      (subscribeSuback { registered := [], lastId := 0 } "test/topic" 1 0).2.topicId ≤ MaxTopicID ∧
      ∀ id, findTopicId ({ registered := [], lastId := 0 } : TopicRegistry).registered "test/topic" = some id →
        (subscribeSuback { registered := [], lastId := 0 } "test/topic" 1 0).2.topicId = id) ∧
    (subscribeSuback { registered := [], lastId := 0 } "test/topic" 1 0).2.msgId = 1 ∧
    (subscribeSuback { registered := [], lastId := 0 } "test/topic" 1 0).2.qos = 0) :=
  ⟨⟨by decide, by simp⟩,
   subscribe_suback_fields { registered := [], lastId := 0 } "test/topic" 1 0
     ⟨by decide, by simp⟩⟩

/-- Big-endian 16-bit encode/decode round-trip. -/
theorem decode_encodeUint16 (n : Nat) : n / 256 * 256 + n % 256 = n := by
  omega

/-- Framing round-trip: splitting a framed packet recovers the type code and
the variable part, in both the short-length and the long-length form. -/
theorem unpackHeader_packMessage (tc : Nat) (vp : List Nat)
    (h : vp.length + 4 < 65536) :
    unpackHeader (packMessage tc vp) = some (tc, vp) := by
  by_cases hs : vp.length + 2 < 256
  · simp only [packMessage, hs, if_pos]
    simp only [unpackHeader]
    rw [if_neg (by omega)]
    simp
  · rw [packMessage, if_neg hs]
    simp only [encodeUint16, List.cons_append, List.nil_append, unpackHeader]
    rw [if_pos trivial, if_pos (by omega)]

/-- Each topic-id-type code fits the two wire bits. -/
theorem titCode_le (t : TopicIdType) : titCode t ≤ 3 := by
  cases t <;> simp [titCode]

/-- The topic-id-type bits decode back to the encoded type. -/
theorem titOfCode_titCode (t : TopicIdType) : titOfCode (titCode t) = t := by
  cases t <;> rfl

/-- Arithmetic decode of every field of the Flags byte. -/
theorem snFlags_fields (d r w c : Bool) (q t : Nat) (hq : q ≤ 3) (ht : t ≤ 3) :
    (snFlags d q r w c t / 128 % 2 == 1) = d ∧
    snFlags d q r w c t / 32 % 4 = q ∧
    (snFlags d q r w c t / 16 % 2 == 1) = r ∧
    (snFlags d q r w c t / 8 % 2 == 1) = w ∧
    (snFlags d q r w c t / 4 % 2 == 1) = c ∧
    snFlags d q r w c t % 4 = t := by
  cases d <;> cases r <;> cases w <;> cases c <;>
    refine ⟨?_, ?_, ?_, ?_, ?_, ?_⟩ <;>
    simp [snFlags] <;> omega

/-- Each message type's wire code decodes back to the type. -/
theorem msgTypeOfCode_msgTypeCode (t : MsgType) :
    msgTypeOfCode (msgTypeCode t) = some t := by
  cases t <;> rfl

/-- C8: serialize-then-parse is the identity on every well-formed message of
the embedded MQTT-SN message universe — one case per packet type, with
field-by-field equality. -/
theorem sn_message_roundtrip (m : SnMessage) (h : wfMessage m) :
    readSnPacket (writeMessage m) = some m := by
  cases m with
  | advertise g d =>
    rw [writeMessage, readSnPacket,
      unpackHeader_packMessage _ _ (by simp [encodeUint16])]
    simp [msgTypeOfCode_msgTypeCode, encodeUint16, unpackMessage,
      decode_encodeUint16]
  | searchGw r =>
    rw [writeMessage, readSnPacket, unpackHeader_packMessage _ _ (by simp)]
    simp [msgTypeOfCode_msgTypeCode, unpackMessage]
  | gwInfo g addr =>
    obtain ⟨h1, h2, h3⟩ := h
    rw [writeMessage, readSnPacket, unpackHeader_packMessage _ _ (by simp; omega)]
    simp [msgTypeOfCode_msgTypeCode, unpackMessage]
  | auth mth d =>
    obtain ⟨h1, h2, h3⟩ := h
    rw [writeMessage, readSnPacket, unpackHeader_packMessage _ _ (by simp; omega)]
    simp [msgTypeOfCode_msgTypeCode, unpackMessage]
  | connect w c pid dur cid =>
    obtain ⟨h1, h2, h3, h4⟩ := h
    obtain ⟨f1, f2, f3, f4, f5, f6⟩ :=
      snFlags_fields false false w c 0 0 (by omega) (by omega)
    rw [writeMessage, readSnPacket,
      unpackHeader_packMessage _ _ (by simp [encodeUint16]; omega)]
    simp only [msgTypeOfCode_msgTypeCode, encodeUint16, List.cons_append,
      List.nil_append, unpackMessage]
    rw [f4, f5]
    simp [decode_encodeUint16]
  | connack rc =>
    rw [writeMessage, readSnPacket, unpackHeader_packMessage _ _ (by simp)]
    simp [msgTypeOfCode_msgTypeCode, unpackMessage]
  | willTopicReq =>
    rw [writeMessage, readSnPacket, unpackHeader_packMessage _ _ (by simp)]
    simp [msgTypeOfCode_msgTypeCode, unpackMessage]
  | willTopic q r t =>
    obtain ⟨h1, h2, h3⟩ := h
    obtain ⟨f1, f2, f3, f4, f5, f6⟩ :=
      snFlags_fields false r false false q 0 h1 (by omega)
    rw [writeMessage, readSnPacket, unpackHeader_packMessage _ _ (by simp; omega)]
    simp only [msgTypeOfCode_msgTypeCode, unpackMessage]
    rw [f2, f3]
  | willMsgReq =>
    rw [writeMessage, readSnPacket, unpackHeader_packMessage _ _ (by simp)]
    simp [msgTypeOfCode_msgTypeCode, unpackMessage]
  | willMsg msg =>
    obtain ⟨h1, h2⟩ := h
    rw [writeMessage, readSnPacket, unpackHeader_packMessage _ _ (by omega)]
    simp [msgTypeOfCode_msgTypeCode, unpackMessage]
  | register tid mid name =>
    obtain ⟨h1, h2, h3, h4⟩ := h
    rw [writeMessage, readSnPacket,
      unpackHeader_packMessage _ _ (by simp [encodeUint16]; omega)]
    simp [msgTypeOfCode_msgTypeCode, encodeUint16, unpackMessage,
      decode_encodeUint16]
  | regack tid mid rc =>
    rw [writeMessage, readSnPacket,
      unpackHeader_packMessage _ _ (by simp [encodeUint16])]
    simp [msgTypeOfCode_msgTypeCode, encodeUint16, unpackMessage,
      decode_encodeUint16]
  | publish d q r tit tid mid dat =>
    obtain ⟨h1, h2, h3, h4, h5⟩ := h
    obtain ⟨f1, f2, f3, f4, f5, f6⟩ :=
      snFlags_fields d r false false q (titCode tit) h1 (titCode_le tit)
    rw [writeMessage, readSnPacket,
      unpackHeader_packMessage _ _ (by simp [encodeUint16]; omega)]
    simp only [msgTypeOfCode_msgTypeCode, encodeUint16, List.cons_append,
      List.nil_append, unpackMessage]
    rw [f1, f2, f3, f6, titOfCode_titCode]
    simp [decode_encodeUint16]
  | puback tid mid rc =>
    rw [writeMessage, readSnPacket,
      unpackHeader_packMessage _ _ (by simp [encodeUint16])]
    simp [msgTypeOfCode_msgTypeCode, encodeUint16, unpackMessage,
      decode_encodeUint16]
  | pubcomp mid =>
    rw [writeMessage, readSnPacket,
      unpackHeader_packMessage _ _ (by simp [encodeUint16])]
    simp [msgTypeOfCode_msgTypeCode, encodeUint16, unpackMessage,
      decode_encodeUint16]
  | pubrec mid =>
    rw [writeMessage, readSnPacket,
      unpackHeader_packMessage _ _ (by simp [encodeUint16])]
    simp [msgTypeOfCode_msgTypeCode, encodeUint16, unpackMessage,
      decode_encodeUint16]
  | pubrel mid =>
    rw [writeMessage, readSnPacket,
      unpackHeader_packMessage _ _ (by simp [encodeUint16])]
    simp [msgTypeOfCode_msgTypeCode, encodeUint16, unpackMessage,
      decode_encodeUint16]
  | subscribe d q tit mid tid name =>
    obtain ⟨h1, h2, h3, h4, h5, h6, h7⟩ := h
    obtain ⟨f1, f2, f3, f4, f5, f6⟩ :=
      snFlags_fields d false false false q (titCode tit) h1 (titCode_le tit)
    by_cases hts : tit = TopicIdType.TIT_STRING
    · subst hts
      rw [writeMessage, readSnPacket,
        unpackHeader_packMessage _ _ (by simp [encodeUint16]; omega)]
      simp only [msgTypeOfCode_msgTypeCode, encodeUint16, List.cons_append,
        List.nil_append, unpackMessage]
      rw [f6, titOfCode_titCode]
      simp [h6 rfl, f1, f2, decode_encodeUint16]
    · rw [writeMessage, readSnPacket,
        unpackHeader_packMessage _ _ (by simp [encodeUint16, hts])]
      simp only [msgTypeOfCode_msgTypeCode, encodeUint16, List.cons_append,
        List.nil_append, unpackMessage]
      rw [f6, titOfCode_titCode]
      simp [hts, h7 hts, f1, f2, decode_encodeUint16]
  | suback q tid mid rc =>
    obtain ⟨h1, h2, h3, h4⟩ := h
    obtain ⟨f1, f2, f3, f4, f5, f6⟩ :=
      snFlags_fields false false false false q 0 h1 (by omega)
    rw [writeMessage, readSnPacket,
      unpackHeader_packMessage _ _ (by simp [encodeUint16])]
    simp only [msgTypeOfCode_msgTypeCode, encodeUint16, List.cons_append,
      List.nil_append, unpackMessage]
    rw [f2]
    simp [decode_encodeUint16]
  | unsubscribe tit mid tid name =>
    obtain ⟨h1, h2, h3, h4, h5, h6⟩ := h
    obtain ⟨f1, f2, f3, f4, f5, f6⟩ :=
      snFlags_fields false false false false 0 (titCode tit) (by omega)
        (titCode_le tit)
    by_cases hts : tit = TopicIdType.TIT_STRING
    · subst hts
      rw [writeMessage, readSnPacket,
        unpackHeader_packMessage _ _ (by simp [encodeUint16]; omega)]
      simp only [msgTypeOfCode_msgTypeCode, encodeUint16, List.cons_append,
        List.nil_append, unpackMessage]
      rw [f6, titOfCode_titCode]
      simp [h5 rfl, decode_encodeUint16]
    · rw [writeMessage, readSnPacket,
        unpackHeader_packMessage _ _ (by simp [encodeUint16, hts])]
      simp only [msgTypeOfCode_msgTypeCode, encodeUint16, List.cons_append,
        List.nil_append, unpackMessage]
      rw [f6, titOfCode_titCode]
      simp [hts, h6 hts, decode_encodeUint16]
  | unsuback mid =>
    rw [writeMessage, readSnPacket,
      unpackHeader_packMessage _ _ (by simp [encodeUint16])]
    simp [msgTypeOfCode_msgTypeCode, encodeUint16, unpackMessage,
      decode_encodeUint16]
  | pingreq cid =>
    obtain ⟨h1, h2⟩ := h
    rw [writeMessage, readSnPacket, unpackHeader_packMessage _ _ (by omega)]
    simp [msgTypeOfCode_msgTypeCode, unpackMessage]
  | pingresp =>
    rw [writeMessage, readSnPacket, unpackHeader_packMessage _ _ (by simp)]
    simp [msgTypeOfCode_msgTypeCode, unpackMessage]
  | disconnect dur =>
    rw [writeMessage, readSnPacket,
      unpackHeader_packMessage _ _ (by simp [encodeUint16])]
    simp [msgTypeOfCode_msgTypeCode, encodeUint16, unpackMessage,
      decode_encodeUint16]
  | willTopicUpd q r t =>
    obtain ⟨h1, h2, h3⟩ := h
    obtain ⟨f1, f2, f3, f4, f5, f6⟩ :=
      snFlags_fields false r false false q 0 h1 (by omega)
    rw [writeMessage, readSnPacket, unpackHeader_packMessage _ _ (by simp; omega)]
    simp only [msgTypeOfCode_msgTypeCode, unpackMessage]
    rw [f2, f3]
  | willTopicResp rc =>
    rw [writeMessage, readSnPacket, unpackHeader_packMessage _ _ (by simp)]
    simp [msgTypeOfCode_msgTypeCode, unpackMessage]
  | willMsgUpd msg =>
    obtain ⟨h1, h2⟩ := h
    rw [writeMessage, readSnPacket, unpackHeader_packMessage _ _ (by omega)]
    simp [msgTypeOfCode_msgTypeCode, unpackMessage]
  | willMsgResp rc =>
    rw [writeMessage, readSnPacket, unpackHeader_packMessage _ _ (by simp)]
    simp [msgTypeOfCode_msgTypeCode, unpackMessage]

/-- Witness for `sn_message_roundtrip` at the PUBACK with topic id 123,
message id 12 and return-code byte 1. -/
theorem sn_message_roundtrip_witness :
    wfMessage (SnMessage.puback 123 12 1) ∧
    readSnPacket (writeMessage (SnMessage.puback 123 12 1)) =
      some (SnMessage.puback 123 12 1) :=
  ⟨⟨by omega, by omega, by omega⟩,
   sn_message_roundtrip (SnMessage.puback 123 12 1) ⟨by omega, by omega, by omega⟩⟩

/-- Taking the non-NUL head of the PLAIN payload recovers the user part. -/
theorem takeWhile_user : ∀ (user pw : List Nat), (∀ b ∈ user, b ≠ 0) →
    List.takeWhile (fun b => decide (b ≠ 0)) (user ++ 0 :: pw) = user
  | [], _, _ => by simp
  | u :: us, pw, hu => by
    have h0 : u ≠ 0 := hu u (by simp)
    have ih := takeWhile_user us pw (fun b hb => hu b (by simp [hb]))
    simp [List.takeWhile_cons, h0]
    simpa using ih

/-- Dropping the non-NUL head of the PLAIN payload leaves the NUL separator
and the password part. -/
theorem dropWhile_user : ∀ (user pw : List Nat), (∀ b ∈ user, b ≠ 0) →
    List.dropWhile (fun b => decide (b ≠ 0)) (user ++ 0 :: pw) = 0 :: pw
  | [], _, _ => by simp
  | u :: us, pw, hu => by
    have h0 : u ≠ 0 := hu u (by simp)
    have ih := dropWhile_user us pw (fun b hb => hu b (by simp [hb]))
    simp [List.dropWhile_cons, h0]
    simpa using ih

/-- Decoding recovers user and password from a PLAIN payload whose user part
contains no NUL byte. -/
theorem decodePlain_encodes (user pw : List Nat) (hu : ∀ b ∈ user, b ≠ 0) :
    DecodePlain (0 :: (user ++ 0 :: pw)) = some (user, pw) := by
  simp only [DecodePlain]
  rw [takeWhile_user user pw hu, dropWhile_user user pw hu]

/-- C7: with authentication enabled the CONNECT transaction contacts the
broker only after an SN AUTH message: `Start` sends nothing; an AUTH with
method PLAIN and payload NUL-user-NUL-password sets UsernameFlag/Username
and PasswordFlag/Password on the MQTT CONNECT and (with no Will sub-flow)
sends that MQTT CONNECT; an AUTH with any other method sends SN
CONNACK(RC_NOT_SUPPORTED) to the client and fails the transaction. -/
theorem auth_plain_or_rejected (mq : ConnectPacket) (user pw : List Nat)
    (m : Nat) (hu : ∀ b ∈ user, b ≠ 0) (hw : mq.willFlag = false)
    (hm : m ≠ AUTH_PLAIN) :
    connectStart true mq = [] ∧
    (connectAuth mq { method := AUTH_PLAIN, data := 0 :: (user ++ 0 :: pw) }).1.usernameFlag
      = true ∧
    (connectAuth mq { method := AUTH_PLAIN, data := 0 :: (user ++ 0 :: pw) }).1.username
      = user ∧
    (connectAuth mq { method := AUTH_PLAIN, data := 0 :: (user ++ 0 :: pw) }).1.passwordFlag
      = true ∧
    (connectAuth mq { method := AUTH_PLAIN, data := 0 :: (user ++ 0 :: pw) }).1.password
      = pw ∧
    (connectAuth mq { method := AUTH_PLAIN, data := 0 :: (user ++ 0 :: pw) }).2
      = [TxEvent.mqttSend
          (connectAuth mq { method := AUTH_PLAIN, data := 0 :: (user ++ 0 :: pw) }).1] ∧
    (connectAuth mq { method := m, data := 0 :: (user ++ 0 :: pw) }).1 = mq ∧
    (connectAuth mq { method := m, data := 0 :: (user ++ 0 :: pw) }).2
      = [TxEvent.snSend (SnOut.connack ReturnCode.RC_NOT_SUPPORTED),
         TxEvent.fail (TxError.unknownAuthMethod m)] ∧
    outcomeOf (connectAuth mq { method := m, data := 0 :: (user ++ 0 :: pw) }).2
      = some (TxOutcome.failed (TxError.unknownAuthMethod m)) := by
  refine ⟨rfl, ?_, ?_, ?_, ?_, ?_, ?_, ?_, ?_⟩ <;>
    simp [connectAuth, decodePlain_encodes user pw hu, hw, hm, outcomeOf]

/-- Witness for `auth_plain_or_rejected` with user byte 117, password byte
112, and the unsupported method byte 0. -/
theorem auth_plain_or_rejected_witness :
    (∀ b ∈ [117], b ≠ 0) ∧ mqSample.willFlag = false ∧ (0 : Nat) ≠ AUTH_PLAIN ∧
    (connectStart true mqSample = [] ∧
     (connectAuth mqSample { method := AUTH_PLAIN, data := 0 :: ([117] ++ 0 :: [112]) }).1.usernameFlag
       = true ∧
     (connectAuth mqSample { method := AUTH_PLAIN, data := 0 :: ([117] ++ 0 :: [112]) }).1.username
       = [117] ∧
     (connectAuth mqSample { method := AUTH_PLAIN, data := 0 :: ([117] ++ 0 :: [112]) }).1.passwordFlag
       = true ∧
     (connectAuth mqSample { method := AUTH_PLAIN, data := 0 :: ([117] ++ 0 :: [112]) }).1.password
       = [112] ∧
     (connectAuth mqSample { method := AUTH_PLAIN, data := 0 :: ([117] ++ 0 :: [112]) }).2
       = [TxEvent.mqttSend
           (connectAuth mqSample { method := AUTH_PLAIN, data := 0 :: ([117] ++ 0 :: [112]) }).1] ∧
     (connectAuth mqSample { method := 0, data := 0 :: ([117] ++ 0 :: [112]) }).1 = mqSample ∧
     (connectAuth mqSample { method := 0, data := 0 :: ([117] ++ 0 :: [112]) }).2
       = [TxEvent.snSend (SnOut.connack ReturnCode.RC_NOT_SUPPORTED),
          TxEvent.fail (TxError.unknownAuthMethod 0)] ∧
     outcomeOf (connectAuth mqSample { method := 0, data := 0 :: ([117] ++ 0 :: [112]) }).2
       = some (TxOutcome.failed (TxError.unknownAuthMethod 0))) :=
  ⟨by decide, rfl, by decide,
   auth_plain_or_rejected mqSample [117] [112] 0 (by decide) rfl (by decide)⟩
